import Mathlib

/-!
Shallow embedding of the Mission Control escape-room controller
(`src/src/main.cpp`), covering the puzzle progression state machine, the
button-sequence matcher with its timed error flag, and the one-shot
conduit/latch gates.  The HTTP transport, HTML templating and logging are
out of scope; each C++ entry point that mutates the global state is
modelled as a function from the state record to a new state record,
paired with the observable outcome of the call (the branch taken, as
witnessed by the Serial log / HTTP response the C++ code produces).
`millis()` values are 32-bit unsigned; timestamp arithmetic is modelled
with explicit `% 2^32`.
-/

namespace MissionControl

/-- `GameState` enum (main.cpp line 15). -/
inductive GameState
  | Puzzle1
  | Puzzle2
  | Puzzle3
  | MissionComplete
deriving DecidableEq, Repr

/-- `ConduitConfirmResult` enum (main.cpp line 16). -/
inductive ConduitConfirmResult
  | Accepted
  | AlreadyConfirmed
  | WrongState
deriving DecidableEq, Repr

/-- Observable outcome of `advanceToPuzzle`: `Applied` when one of the three
legal transition branches runs, `Rejected` when the call falls through to a
log-and-return (the function itself returns `void` in C++; the outcome is the
branch taken). -/
inductive TransitionOutcome
  | Applied
  | Rejected
deriving DecidableEq, Repr

/-- Observable outcome of `registerButtonPress`: which branch of the C++
function ran, with the data that branch logs (progress and completion on a
match, the expected identifier on a mismatch). -/
inductive SequenceOutcome
  | WrongStage
  | Correct (progress : Nat) (complete : Bool)
  | Incorrect (expected : Nat)
deriving DecidableEq, Repr

/-- The mutable globals of main.cpp lines 19-24, gathered into one record. -/
structure Hub where
  currentState : GameState
  nextSequenceIndex : Nat
  latchTriggered : Bool
  conduitsVerified : Bool
  sequenceError : Bool
  sequenceErrorExpiresAt : Nat
deriving DecidableEq, Repr

/-- Initial values of the globals (main.cpp lines 19-24). -/
def initHub : Hub :=
  { currentState := .Puzzle1
    nextSequenceIndex := 0
    latchTriggered := false
    conduitsVerified := false
    sequenceError := false
    sequenceErrorExpiresAt := 0 }

/-- `SEQUENCE_ERROR_FLASH_MS` (main.cpp line 10). -/
def SEQUENCE_ERROR_FLASH_MS : Nat := 2500

/-- `BUTTON_SEQUENCE` (main.cpp line 12). -/
def BUTTON_SEQUENCE : List Nat := [4, 1, 5, 1, 3, 5, 4, 2, 1, 3, 2, 4, 5, 3, 1]

/-- `BUTTON_SEQUENCE_LENGTH` (main.cpp line 13). -/
def BUTTON_SEQUENCE_LENGTH : Nat := BUTTON_SEQUENCE.length

/-- `unsigned long` on the ESP32 is 32 bits; `millis()` values and the
stored expiry timestamp live modulo this. -/
def UL_MOD : Nat := 4294967296

/-- Half of `UL_MOD`: an unsigned 32-bit value cast to (32-bit) `long` is
non-negative exactly when it is below this. -/
def LONG_NONNEG_BOUND : Nat := 2147483648

/-- `triggerLatch` (main.cpp lines 103-109).  Returns the new state and
whether the physical latch action fired during this call. -/
def triggerLatch (s : Hub) : Hub × Bool :=
  if s.latchTriggered then (s, false)
  else ({ s with latchTriggered := true }, true)

/-- `resetSequenceTracking` (main.cpp lines 111-113). -/
def resetSequenceTracking (s : Hub) : Hub :=
  { s with nextSequenceIndex := 0 }

/-- `clearSequenceError` (main.cpp lines 115-118). -/
def clearSequenceError (s : Hub) : Hub :=
  { s with sequenceError := false, sequenceErrorExpiresAt := 0 }

/-- `markSequenceError` (main.cpp lines 120-123); `now` is the raw
`millis()` reading, and `millis() + SEQUENCE_ERROR_FLASH_MS` wraps at 2^32. -/
def markSequenceError (now : Nat) (s : Hub) : Hub :=
  { s with
    sequenceError := true
    sequenceErrorExpiresAt := (now % UL_MOD + SEQUENCE_ERROR_FLASH_MS) % UL_MOD }

/-- `isSequenceErrorActive` (main.cpp lines 125-134): lazily expires the
flag.  The C++ test is `(long)(millis() - sequenceErrorExpiresAt) >= 0`,
i.e. the unsigned 32-bit difference is below 2^31. -/
def isSequenceErrorActive (now : Nat) (s : Hub) : Hub × Bool :=
  if s.sequenceError = false then (s, false)
  else if (now % UL_MOD + UL_MOD - s.sequenceErrorExpiresAt % UL_MOD) % UL_MOD
      < LONG_NONNEG_BOUND then
    (clearSequenceError s, false)
  else (s, true)

/-- `resetGame` (main.cpp lines 167-174). -/
def resetGame (s : Hub) : Hub :=
  resetSequenceTracking (clearSequenceError
    { s with currentState := .Puzzle1, latchTriggered := false, conduitsVerified := false })

/-- `completeMission` (main.cpp lines 176-181).  The `Bool` records whether
`triggerLatch` fired the physical latch during this call. -/
def completeMission (s : Hub) : Hub × Bool :=
  triggerLatch (clearSequenceError { s with currentState := .MissionComplete })

/-- `advanceToPuzzle` (main.cpp lines 183-211), with the branch taken as the
outcome. -/
def advanceToPuzzle (target : GameState) (s : Hub) : Hub × TransitionOutcome :=
  if s.currentState = .MissionComplete then (s, .Rejected)
  else if target = .Puzzle2 ∧ s.currentState = .Puzzle1 then
    (clearSequenceError { s with currentState := .Puzzle2, conduitsVerified := false },
      .Applied)
  else if target = .Puzzle3 ∧ s.currentState = .Puzzle2 then
    (resetSequenceTracking (clearSequenceError { s with currentState := .Puzzle3 }),
      .Applied)
  else if target = .MissionComplete ∧ s.currentState = .Puzzle3 then
    ((completeMission s).1, .Applied)
  else (s, .Rejected)

/-- `registerButtonPress` (main.cpp lines 241-263).  `now` is the `millis()`
reading an error mark would use.  The C++ indexes `BUTTON_SEQUENCE` without a
bound check; the embedding reads out of range as 0 (no button identifier),
and the in-bounds invariant is proved separately over reachable states. -/
def registerButtonPress (now : Nat) (buttonId : Nat) (s : Hub) : Hub × SequenceOutcome :=
  if s.currentState ≠ .Puzzle3 then (s, .WrongStage)
  else if buttonId = BUTTON_SEQUENCE.getD s.nextSequenceIndex 0 then
    if BUTTON_SEQUENCE_LENGTH ≤ s.nextSequenceIndex + 1 then
      ((completeMission
          { clearSequenceError s with nextSequenceIndex := s.nextSequenceIndex + 1 }).1,
        .Correct (s.nextSequenceIndex + 1) true)
    else ({ clearSequenceError s with nextSequenceIndex := s.nextSequenceIndex + 1 },
      .Correct (s.nextSequenceIndex + 1) false)
  else (resetSequenceTracking (markSequenceError now s),
    .Incorrect (BUTTON_SEQUENCE.getD s.nextSequenceIndex 0))

/-- `confirmConduitsAligned` (main.cpp lines 265-277). -/
def confirmConduitsAligned (s : Hub) : Hub × ConduitConfirmResult :=
  if s.currentState ≠ .Puzzle2 then (s, .WrongState)
  else if s.conduitsVerified then (s, .AlreadyConfirmed)
  else ({ s with conduitsVerified := true }, .Accepted)

/-- `handleRemoteButton` (main.cpp lines 213-239): the four-button GM remote
dispatch; unknown codes are a no-op. -/
def handleRemoteButton (c : Char) (s : Hub) : Hub :=
  if c = 'A' ∨ c = 'a' then (advanceToPuzzle .Puzzle2 s).1
  else if c = 'B' ∨ c = 'b' then (advanceToPuzzle .Puzzle3 s).1
  else if c = 'C' ∨ c = 'c' then resetGame s
  else if c = 'D' ∨ c = 'd' then (completeMission s).1
  else s

/-- The state-mutating entry points reachable from the HTTP layer
(`configureRoutes`, main.cpp lines 490-498): the remote dispatch, a direct
transition request, reset, force-complete, a puzzle-button press, the conduit
confirmation, and the lazy error-expiry read performed while rendering the
Puzzle3 page. -/
inductive Op
  | remote (c : Char)
  | advance (target : GameState)
  | reset
  | complete
  | press (now : Nat) (buttonId : Nat)
  | confirm
  | errQuery (now : Nat)

/-- Effect of one inbound operation on the globals (outcomes projected away). -/
def step (op : Op) (s : Hub) : Hub :=
  match op with
  | .remote c => handleRemoteButton c s
  | .advance t => (advanceToPuzzle t s).1
  | .reset => resetGame s
  | .complete => (completeMission s).1
  | .press now b => (registerButtonPress now b s).1
  | .confirm => (confirmConduitsAligned s).1
  | .errQuery now => (isSequenceErrorActive now s).1

/-- States reachable from boot by any sequence of inbound operations. -/
inductive Reachable : Hub → Prop
  | init : Reachable initHub
  | step (op : Op) {s : Hub} : Reachable s → Reachable (step op s)

/-- Whether an operation is the conduit confirmation. -/
def Op.isConfirm : Op → Bool
  | .confirm => true
  | _ => false

/-- Submitting a list of button identifiers one at a time, oldest first. -/
def pressAll (now : Nat) (ids : List Nat) (s : Hub) : Hub :=
  ids.foldl (fun t b => (registerButtonPress now b t).1) s

/-! ### Helper lemmas about the individual operations -/

/-- The state after `completeMission`, in closed form: stage forced to
MissionComplete, error cleared, latch true, everything else untouched. -/
lemma completeMission_fst (s : Hub) :
    (completeMission s).1 =
      { s with currentState := .MissionComplete, latchTriggered := true,
               sequenceError := false, sequenceErrorExpiresAt := 0 } := by
  cases s with
  | mk st idx l c e x => cases l <;> simp [completeMission, triggerLatch, clearSequenceError]

/-- `completeMission` fires the latch action exactly when the latch was not
yet triggered. -/
lemma completeMission_snd (s : Hub) : (completeMission s).2 = !s.latchTriggered := by
  cases s with
  | mk st idx l c e x => cases l <;> simp [completeMission, triggerLatch, clearSequenceError]

/-! ### C6 -/

/-- C6: `reset()` invoked from any state returns the game to Puzzle1 with
`conduits_verified = false`, `next_index = 0`, no active sequence error, and
`latch_triggered = false`. -/
theorem reset_restores_initial_flags (s : Hub) :
    (resetGame s).currentState = .Puzzle1 ∧
    (resetGame s).conduitsVerified = false ∧
    (resetGame s).nextSequenceIndex = 0 ∧
    (resetGame s).sequenceError = false ∧
    (resetGame s).sequenceErrorExpiresAt = 0 ∧
    (resetGame s).latchTriggered = false := by
  simp [resetGame, resetSequenceTracking, clearSequenceError]

/-! ### C5 -/

/-- C5: `complete_mission()` forces stage to MissionComplete and clears the
sequence error from any stage; the latch action fires exactly when the latch
was not yet triggered (so at most once per session, the first call firing
it), and a second consecutive call changes nothing and does not fire again
(idempotence on the game state). -/
theorem complete_mission_latch_once_idempotent (s : Hub) :
    ((completeMission s).1).latchTriggered = true ∧
    ((completeMission s).1).currentState = .MissionComplete ∧
    ((completeMission s).1).sequenceError = false ∧
    ((completeMission s).1).sequenceErrorExpiresAt = 0 ∧
    (completeMission s).2 = !s.latchTriggered ∧
    completeMission ((completeMission s).1) = ((completeMission s).1, false) := by
  have h1 := completeMission_fst s
  have h2 := completeMission_snd ((completeMission s).1)
  refine ⟨by rw [h1], by rw [h1], by rw [h1], by rw [h1], completeMission_snd s, ?_⟩
  have h3 := completeMission_fst ((completeMission s).1)
  rw [h1] at h2 h3 ⊢
  simp at h2 h3
  exact Prod.ext h3 h2

/-! ### C1 -/

/-- C1 (counterexample): from Puzzle3 with `next_index = 3`, a forced
`complete_mission()` leaves `next_index` at 3, not 0 — the code never calls
`resetSequenceTracking` in `completeMission`. -/
theorem complete_mission_keeps_index_counterexample :
    ((completeMission (Hub.mk .Puzzle3 3 false false false 0)).1).nextSequenceIndex ≠ 0 := by
  decide

/-- C1 (amended): whenever `complete_mission()` fires, the sequence error is
cleared (no expiry set) and the stage is forced to MissionComplete, but
`next_index` is left unchanged — progress is reset to 0 only by `reset()`
and by entering Puzzle3 via `advance`, never by `complete_mission()` itself. -/
theorem complete_mission_clears_error_keeps_index (s : Hub) :
    ((completeMission s).1).sequenceError = false ∧
    ((completeMission s).1).sequenceErrorExpiresAt = 0 ∧
    ((completeMission s).1).currentState = .MissionComplete ∧
    ((completeMission s).1).nextSequenceIndex = s.nextSequenceIndex := by
  rw [completeMission_fst s]
  exact ⟨rfl, rfl, rfl, rfl⟩

/-! ### C2 -/

/-- C2: `advanceToPuzzle` applies exactly the three legal `(current, target)`
pairs — Puzzle1→Puzzle2 clears `conduits_verified` and the error,
Puzzle2→Puzzle3 resets progress and the error (with no condition on
`conduits_verified`), Puzzle3→MissionComplete delegates to
`completeMission` — and rejects every other pair (in particular everything
from MissionComplete) leaving the state unchanged. -/
theorem advance_legal_pairs (s : Hub) (t : GameState) :
    (s.currentState = .Puzzle1 ∧ t = .Puzzle2 →
      advanceToPuzzle t s =
        ({ s with currentState := .Puzzle2, conduitsVerified := false,
                  sequenceError := false, sequenceErrorExpiresAt := 0 }, .Applied)) ∧
    (s.currentState = .Puzzle2 ∧ t = .Puzzle3 →
      advanceToPuzzle t s =
        ({ s with currentState := .Puzzle3, nextSequenceIndex := 0,
                  sequenceError := false, sequenceErrorExpiresAt := 0 }, .Applied)) ∧
    (s.currentState = .Puzzle3 ∧ t = .MissionComplete →
      advanceToPuzzle t s = ((completeMission s).1, .Applied)) ∧
    (¬((s.currentState = .Puzzle1 ∧ t = .Puzzle2) ∨
       (s.currentState = .Puzzle2 ∧ t = .Puzzle3) ∨
       (s.currentState = .Puzzle3 ∧ t = .MissionComplete)) →
      advanceToPuzzle t s = (s, .Rejected)) := by
  refine ⟨?_, ?_, ?_, ?_⟩
  · rintro ⟨h1, h2⟩
    simp [advanceToPuzzle, h1, h2, clearSequenceError]
  · rintro ⟨h1, h2⟩
    simp [advanceToPuzzle, h1, h2, clearSequenceError, resetSequenceTracking]
  · rintro ⟨h1, h2⟩
    simp [advanceToPuzzle, h1, h2]
  · intro h
    push_neg at h
    unfold advanceToPuzzle
    split_ifs with g1 g2 g3 g4
    · rfl
    · exact absurd g2.2 (fun hc => (h.1 hc) g2.1)
    · exact absurd g3.2 (fun hc => (h.2.1 hc) g3.1)
    · exact absurd g4.2 (fun hc => (h.2.2 hc) g4.1)
    · rfl

/-- Witness for C2: the Puzzle1→Puzzle2 transition from the boot state is
applied with the stated effects. -/
theorem advance_legal_pairs_witness :
    advanceToPuzzle .Puzzle2 initHub =
      ({ initHub with currentState := .Puzzle2, conduitsVerified := false,
                      sequenceError := false, sequenceErrorExpiresAt := 0 }, .Applied) :=
  (advance_legal_pairs initHub .Puzzle2).1 ⟨rfl, rfl⟩

/-! ### C7 -/

/-- A transition request never turns `conduitsVerified` on. -/
lemma conduits_advance (t : GameState) (s : Hub)
    (h : ((advanceToPuzzle t s).1).conduitsVerified = true) : s.conduitsVerified = true := by
  unfold advanceToPuzzle at h
  split_ifs at h with g1 g2 g3 g4
  · exact h
  · simp [clearSequenceError] at h
  · simpa [clearSequenceError, resetSequenceTracking] using h
  · rw [completeMission_fst] at h; exact h
  · exact h

/-- `conduitsVerified` can only be turned on by the confirm operation: every
other inbound operation maps a state with `conduitsVerified = false` to a
state with `conduitsVerified = false` (or force-clears it). -/
lemma conduits_set_only_by_confirm (op : Op) (s : Hub) (hop : op.isConfirm = false)
    (h : (step op s).conduitsVerified = true) : s.conduitsVerified = true := by
  cases op with
  | confirm => simp [Op.isConfirm] at hop
  | reset => simp [step, resetGame, resetSequenceTracking, clearSequenceError] at h
  | complete => rw [step, completeMission_fst] at h; exact h
  | advance t => exact conduits_advance t s h
  | press now b =>
      simp only [step, registerButtonPress] at h
      split_ifs at h with g1 g2 g3
      · exact h
      · rw [completeMission_fst] at h
        simpa [clearSequenceError] using h
      · simpa [clearSequenceError] using h
      · simpa [resetSequenceTracking, markSequenceError] using h
  | errQuery now =>
      rw [step] at h
      unfold isSequenceErrorActive at h
      split_ifs at h
      · exact h
      · simpa [clearSequenceError] using h
      · exact h
  | remote c =>
      rw [step] at h
      unfold handleRemoteButton at h
      split_ifs at h with g1 g2 g3 g4
      · exact conduits_advance .Puzzle2 s h
      · exact conduits_advance .Puzzle3 s h
      · simp [resetGame, resetSequenceTracking, clearSequenceError] at h
      · rw [completeMission_fst] at h; exact h
      · exact h

/-- C7: `confirm_conduits()` returns WrongState without mutation outside
Puzzle2, AlreadyConfirmed without mutation when already verified, and
otherwise sets `conduits_verified` and returns Accepted — so two consecutive
calls in Puzzle2 yield Accepted then AlreadyConfirmed with the flag true
after both — and no other operation ever turns `conduits_verified` on. -/
theorem confirm_conduits_spec (s : Hub) :
    (s.currentState ≠ .Puzzle2 → confirmConduitsAligned s = (s, .WrongState)) ∧
    (s.currentState = .Puzzle2 → s.conduitsVerified = true →
      confirmConduitsAligned s = (s, .AlreadyConfirmed)) ∧
    (s.currentState = .Puzzle2 → s.conduitsVerified = false →
      confirmConduitsAligned s = ({ s with conduitsVerified := true }, .Accepted) ∧
      confirmConduitsAligned { s with conduitsVerified := true } =
        ({ s with conduitsVerified := true }, .AlreadyConfirmed)) ∧
    (∀ op : Op, op.isConfirm = false →
      (step op s).conduitsVerified = true → s.conduitsVerified = true) := by
  refine ⟨?_, ?_, ?_, fun op hop h => conduits_set_only_by_confirm op s hop h⟩
  · intro h; simp [confirmConduitsAligned, h]
  · intro h1 h2; simp [confirmConduitsAligned, h1, h2]
  · intro h1 h2
    constructor
    · simp [confirmConduitsAligned, h1, h2]
    · simp [confirmConduitsAligned, h1]

/-- Witness for C7: in Puzzle2 with the gate unset, back-to-back calls give
Accepted then AlreadyConfirmed. -/
theorem confirm_conduits_spec_witness :
    confirmConduitsAligned (Hub.mk .Puzzle2 0 false false false 0) =
      (Hub.mk .Puzzle2 0 false true false 0, .Accepted) ∧
    confirmConduitsAligned (Hub.mk .Puzzle2 0 false true false 0) =
      (Hub.mk .Puzzle2 0 false true false 0, .AlreadyConfirmed) :=
  (confirm_conduits_spec (Hub.mk .Puzzle2 0 false false false 0)).2.2.1 rfl rfl

/-! ### C9 -/

/-- C9: a `submit` outside Puzzle3 returns WrongStage with the whole state
unchanged, and every rejected operation — a rejected `advance`, a
WrongState or AlreadyConfirmed `confirm_conduits` — leaves the state
unchanged. -/
theorem rejected_ops_leave_state_unchanged (s : Hub) (now b : Nat) :
    (s.currentState ≠ .Puzzle3 → registerButtonPress now b s = (s, .WrongStage)) ∧
    (∀ t, (advanceToPuzzle t s).2 = .Rejected → (advanceToPuzzle t s).1 = s) ∧
    ((confirmConduitsAligned s).2 ≠ .Accepted → (confirmConduitsAligned s).1 = s) := by
  refine ⟨?_, ?_, ?_⟩
  · intro h; simp [registerButtonPress, h]
  · intro t
    unfold advanceToPuzzle
    split_ifs <;> simp
  · unfold confirmConduitsAligned
    split_ifs <;> simp

/-- Witness for C9: a button press in Puzzle1 is ignored with no state
change, and an `advance` to Puzzle3 from Puzzle1 is rejected with no state
change. -/
theorem rejected_ops_leave_state_unchanged_witness :
    registerButtonPress 0 3 initHub = (initHub, .WrongStage) ∧
    (advanceToPuzzle .Puzzle3 initHub).1 = initHub :=
  ⟨(rejected_ops_leave_state_unchanged initHub 0 3).1 (by decide),
   (rejected_ops_leave_state_unchanged initHub 0 3).2.1 .Puzzle3 (by decide)⟩

/-! ### C4 -/

/-- Unfolding of the lazy expiry check when an error is pending. -/
lemma isSequenceErrorActive_of_error (tq : Nat) (s : Hub) (he : s.sequenceError = true) :
    isSequenceErrorActive tq s =
      if (tq % UL_MOD + UL_MOD - s.sequenceErrorExpiresAt % UL_MOD) % UL_MOD
          < LONG_NONNEG_BOUND
      then (clearSequenceError s, false) else (s, true) := by
  simp [isSequenceErrorActive, he]

/-- With no error pending the lazy expiry check is a pure read. -/
lemma isSequenceErrorActive_of_clear (tq : Nat) (s : Hub) (he : s.sequenceError = false) :
    isSequenceErrorActive tq s = (s, false) := by
  simp [isSequenceErrorActive, he]

/-- C4: in Puzzle3, a wrong identifier resets `next_index` to 0 and arms the
error flag with expiry `now + 2500 ms` (mod 2^32); the flag then reads
active at every query from the mark up to (strictly before) the expiry, the
first query at or after the expiry (within the 2^31 ms range of the signed
32-bit idiom) clears it as a side effect and returns false, and once
cleared every further query returns false without change — the flag
self-clears exactly once and never before the expiry. -/
theorem mismatch_arms_timed_error (s : Hub) (m b : Nat)
    (hst : s.currentState = .Puzzle3)
    (hb : b ≠ BUTTON_SEQUENCE.getD s.nextSequenceIndex 0) :
    ((registerButtonPress m b s).1).nextSequenceIndex = 0 ∧
    ((registerButtonPress m b s).1).sequenceError = true ∧
    ((registerButtonPress m b s).1).sequenceErrorExpiresAt =
      (m % UL_MOD + SEQUENCE_ERROR_FLASH_MS) % UL_MOD ∧
    (∀ tq, m ≤ tq → tq < m + SEQUENCE_ERROR_FLASH_MS →
      isSequenceErrorActive tq ((registerButtonPress m b s).1) =
        ((registerButtonPress m b s).1, true)) ∧
    (∀ tq, m + SEQUENCE_ERROR_FLASH_MS ≤ tq →
        tq < m + SEQUENCE_ERROR_FLASH_MS + LONG_NONNEG_BOUND →
      isSequenceErrorActive tq ((registerButtonPress m b s).1) =
        (clearSequenceError ((registerButtonPress m b s).1), false)) ∧
    (∀ t2, isSequenceErrorActive t2 (clearSequenceError ((registerButtonPress m b s).1)) =
      (clearSequenceError ((registerButtonPress m b s).1), false)) := by
  have hr : registerButtonPress m b s =
      (resetSequenceTracking (markSequenceError m s),
        .Incorrect (BUTTON_SEQUENCE.getD s.nextSequenceIndex 0)) := by
    unfold registerButtonPress
    rw [if_neg (by simp [hst]), if_neg hb]
  have hidx : ((registerButtonPress m b s).1).nextSequenceIndex = 0 := by rw [hr]; rfl
  have herr : ((registerButtonPress m b s).1).sequenceError = true := by rw [hr]; rfl
  have hexp : ((registerButtonPress m b s).1).sequenceErrorExpiresAt =
      (m % UL_MOD + SEQUENCE_ERROR_FLASH_MS) % UL_MOD := by rw [hr]; rfl
  refine ⟨hidx, herr, hexp, ?_, ?_, ?_⟩
  · intro tq ha hb2
    rw [isSequenceErrorActive_of_error tq _ herr, hexp]
    split_ifs with hcond
    · exfalso
      simp only [UL_MOD, LONG_NONNEG_BOUND, SEQUENCE_ERROR_FLASH_MS] at hcond hb2
      omega
    · rfl
  · intro tq ha hb2
    rw [isSequenceErrorActive_of_error tq _ herr, hexp]
    split_ifs with hcond
    · rfl
    · exfalso
      simp only [UL_MOD, LONG_NONNEG_BOUND, SEQUENCE_ERROR_FLASH_MS] at hcond ha hb2
      omega
  · intro t2
    exact isSequenceErrorActive_of_clear t2 _ rfl

/-- Witness for C4: pressing 5 at position 0 (where 4 is expected) at time
100 arms the error; a query at time 2000 still reads active, and one at
time 2600 (at/after expiry 2600) reads inactive and clears the flag. -/
theorem mismatch_arms_timed_error_witness :
    isSequenceErrorActive 2000
        ((registerButtonPress 100 5 (Hub.mk .Puzzle3 0 false false false 0)).1) =
      ((registerButtonPress 100 5 (Hub.mk .Puzzle3 0 false false false 0)).1, true) ∧
    isSequenceErrorActive 2600
        ((registerButtonPress 100 5 (Hub.mk .Puzzle3 0 false false false 0)).1) =
      (clearSequenceError
        ((registerButtonPress 100 5 (Hub.mk .Puzzle3 0 false false false 0)).1), false) :=
  ⟨(mismatch_arms_timed_error (Hub.mk .Puzzle3 0 false false false 0) 100 5 rfl
      (by decide)).2.2.2.1 2000 (by decide) (by decide),
   (mismatch_arms_timed_error (Hub.mk .Puzzle3 0 false false false 0) 100 5 rfl
      (by decide)).2.2.2.2.1 2600 (by decide) (by decide)⟩

/-! ### C8 -/

/-- One inbound operation preserves "the conduit gate is only set at Puzzle2
or later". -/
lemma conduits_not_in_puzzle1_step (op : Op) (s : Hub)
    (ih : s.conduitsVerified = true → s.currentState ≠ .Puzzle1) :
    (step op s).conduitsVerified = true → (step op s).currentState ≠ .Puzzle1 := by
  have hadv : ∀ t : GameState,
      ((advanceToPuzzle t s).1).conduitsVerified = true →
      ((advanceToPuzzle t s).1).currentState ≠ .Puzzle1 := by
    intro t
    unfold advanceToPuzzle
    split_ifs with g1 g2 g3 g4
    · exact ih
    · simp [clearSequenceError]
    · simp [clearSequenceError, resetSequenceTracking]
    · rw [completeMission_fst]; intro _; simp
    · exact ih
  have hreset : (resetGame s).conduitsVerified = true → (resetGame s).currentState ≠ .Puzzle1 := by
    simp [resetGame, resetSequenceTracking, clearSequenceError]
  have hcomp : ((completeMission s).1).conduitsVerified = true →
      ((completeMission s).1).currentState ≠ .Puzzle1 := by
    rw [completeMission_fst]; intro _; simp
  cases op with
  | advance t => exact hadv t
  | reset => exact hreset
  | complete => exact hcomp
  | confirm =>
      simp only [step, confirmConduitsAligned]
      split_ifs with g1 g2
      · exact ih
      · exact ih
      · intro _
        simp only [not_not] at g1
        simp [g1]
  | press now b =>
      simp only [step, registerButtonPress]
      split_ifs with g1 g2 g3
      · exact ih
      · rw [completeMission_fst]; intro _; simp
      · intro h
        simp only [not_not] at g1
        simp [clearSequenceError, g1]
      · intro h
        simp only [not_not] at g1
        simp [resetSequenceTracking, markSequenceError, g1]
  | errQuery now =>
      simp only [step, isSequenceErrorActive]
      split_ifs with g1 g2
      · exact ih
      · simpa [clearSequenceError] using ih
      · exact ih
  | remote c =>
      simp only [step, handleRemoteButton]
      split_ifs with g1 g2 g3 g4
      · exact hadv .Puzzle2
      · exact hadv .Puzzle3
      · exact hreset
      · exact hcomp
      · exact ih

/-- C8: in every reachable state, `conduits_verified` is never true while
the stage is Puzzle1 — reset and (re-)entry into Puzzle2 force-clear it, and
only `confirm_conduits()` (which requires stage Puzzle2) sets it. -/
theorem conduits_never_true_in_puzzle1 (s : Hub) (h : Reachable s)
    (hc : s.conduitsVerified = true) : s.currentState ≠ .Puzzle1 := by
  induction h with
  | init => simp [initHub] at hc
  | step op hs ih => exact conduits_not_in_puzzle1_step op _ ih hc

/-- Witness for C8: after advancing to Puzzle2 and confirming the conduits,
the gate is set and the stage is indeed not Puzzle1. -/
theorem conduits_never_true_in_puzzle1_witness :
    (step .confirm (step (.advance .Puzzle2) initHub)).currentState ≠ .Puzzle1 :=
  conduits_never_true_in_puzzle1 _
    (Reachable.step .confirm (Reachable.step (.advance .Puzzle2) Reachable.init))
    (by decide)

/-! ### C10 -/

/-- One inbound operation preserves "in Puzzle3 the next expected index is
below the pattern length". -/
lemma index_in_bounds_step (op : Op) (s : Hub)
    (ih : s.currentState = .Puzzle3 → s.nextSequenceIndex < BUTTON_SEQUENCE_LENGTH) :
    (step op s).currentState = .Puzzle3 →
      (step op s).nextSequenceIndex < BUTTON_SEQUENCE_LENGTH := by
  have hadv : ∀ t : GameState,
      ((advanceToPuzzle t s).1).currentState = .Puzzle3 →
      ((advanceToPuzzle t s).1).nextSequenceIndex < BUTTON_SEQUENCE_LENGTH := by
    intro t
    unfold advanceToPuzzle
    split_ifs with g1 g2 g3 g4
    · exact ih
    · simp [clearSequenceError]
    · intro _
      simp only [resetSequenceTracking, clearSequenceError]
      decide
    · rw [completeMission_fst]; intro hx; exact absurd hx (by simp)
    · exact ih
  have hreset : (resetGame s).currentState = .Puzzle3 →
      (resetGame s).nextSequenceIndex < BUTTON_SEQUENCE_LENGTH := by
    simp [resetGame, resetSequenceTracking, clearSequenceError]
  have hcomp : ((completeMission s).1).currentState = .Puzzle3 →
      ((completeMission s).1).nextSequenceIndex < BUTTON_SEQUENCE_LENGTH := by
    rw [completeMission_fst]; intro hx; exact absurd hx (by simp)
  cases op with
  | advance t => exact hadv t
  | reset => exact hreset
  | complete => exact hcomp
  | confirm =>
      simp only [step, confirmConduitsAligned]
      split_ifs with g1 g2
      · exact ih
      · exact ih
      · intro hx
        exact ih hx
  | press now b =>
      simp only [step, registerButtonPress]
      split_ifs with g1 g2 g3
      · exact ih
      · rw [completeMission_fst]; intro hx; exact absurd hx (by simp)
      · intro _
        simp only [not_not] at g1 g3
        simp only [clearSequenceError]
        omega
      · intro _
        simp [resetSequenceTracking, markSequenceError, BUTTON_SEQUENCE_LENGTH,
          BUTTON_SEQUENCE]
  | errQuery now =>
      simp only [step, isSequenceErrorActive]
      split_ifs with g1 g2
      · exact ih
      · simpa [clearSequenceError] using ih
      · exact ih
  | remote c =>
      simp only [step, handleRemoteButton]
      split_ifs with g1 g2 g3 g4
      · exact hadv .Puzzle2
      · exact hadv .Puzzle3
      · exact hreset
      · exact hcomp
      · exact ih

/-- C10: in every reachable state in stage Puzzle3, `next_index` is below
the pattern length (15) — every entry into Puzzle3 resets it to 0, and the
press that brings it to 15 leaves Puzzle3 via `completeMission` — so the
unguarded `BUTTON_SEQUENCE[nextSequenceIndex]` read inside
`registerButtonPress` is always in bounds. -/
theorem puzzle3_index_in_bounds (s : Hub) (h : Reachable s)
    (h3 : s.currentState = .Puzzle3) : s.nextSequenceIndex < BUTTON_SEQUENCE.length := by
  induction h with
  | init => simp [initHub] at h3
  | step op hs ih => exact index_in_bounds_step op _ ih h3

/-- Witness for C10: the reachable state obtained by advancing to Puzzle2
then Puzzle3 is in Puzzle3 with its pattern index in bounds. -/
theorem puzzle3_index_in_bounds_witness :
    (step (.advance .Puzzle3) (step (.advance .Puzzle2) initHub)).nextSequenceIndex
      < BUTTON_SEQUENCE.length :=
  puzzle3_index_in_bounds _
    (Reachable.step (.advance .Puzzle3) (Reachable.step (.advance .Puzzle2) Reachable.init))
    (by decide)

/-! ### C3 -/

/-- C3: from Puzzle3 with `next_index = 0` (arbitrary latch/conduit/error
state), submitting the pattern 4,1,5,1,3,5,4,2,1,3,2,4,5,3,1 one identifier
at a time keeps the stage at Puzzle3 and drives `next_index` through every
value 0,…,14; each correct submission clears any active error and advances
`next_index` by exactly one, and the 15th submission reports
`Correct(15, complete = true)` and leaves the game in MissionComplete with
`next_index = 15`. -/
theorem full_sequence_completes (l c e : Bool) (x now : Nat) :
    (∀ i : Fin 15,
      (pressAll now (BUTTON_SEQUENCE.take i.val)
        (Hub.mk .Puzzle3 0 l c e x)).currentState = .Puzzle3 ∧
      (pressAll now (BUTTON_SEQUENCE.take i.val)
        (Hub.mk .Puzzle3 0 l c e x)).nextSequenceIndex = i.val ∧
      ((registerButtonPress now (BUTTON_SEQUENCE.getD i.val 0)
        (pressAll now (BUTTON_SEQUENCE.take i.val)
          (Hub.mk .Puzzle3 0 l c e x))).1).sequenceError = false ∧
      ((registerButtonPress now (BUTTON_SEQUENCE.getD i.val 0)
        (pressAll now (BUTTON_SEQUENCE.take i.val)
          (Hub.mk .Puzzle3 0 l c e x))).1).nextSequenceIndex = i.val + 1) ∧
    (pressAll now BUTTON_SEQUENCE (Hub.mk .Puzzle3 0 l c e x)).currentState
      = .MissionComplete ∧
    (pressAll now BUTTON_SEQUENCE (Hub.mk .Puzzle3 0 l c e x)).nextSequenceIndex = 15 ∧
    (registerButtonPress now 1
      (pressAll now (BUTTON_SEQUENCE.take 14) (Hub.mk .Puzzle3 0 l c e x))).2
      = .Correct 15 true := by
  cases l
  all_goals refine ⟨fun i => ?_, ?_, ?_, ?_⟩
  all_goals try fin_cases i
  all_goals
    simp [pressAll, registerButtonPress, BUTTON_SEQUENCE, BUTTON_SEQUENCE_LENGTH,
      clearSequenceError, markSequenceError, resetSequenceTracking, completeMission,
      triggerLatch, List.take, List.foldl]

end MissionControl
